import Mathlib

/-!
Shallow embedding of `pantalaimon/ui.py`: the command/response correlation
bridge between a D-Bus control surface (`Control`, `Devices`) and the
daemon worker, mediated by two FIFO queues and dispatched by
`GlibT.message_callback`.

Python dictionaries are modelled as association lists (`alSet` mirrors
`d[k] = v`: replace the first binding of the key, otherwise append, which
matches insertion-ordered Python dicts).  The mutable objects shared by
reference in the source (the `IdCounter` instance and the outbound queue,
both handed to `Control` and `Devices` by `GlibT.__attrs_post_init__`)
become fields of one explicit state record `BridgeState`, threaded through
every operation.
-/

namespace Pantalaimon

/-- Python `d.get(k, None)` on an insertion-ordered dict modelled as an
association list. -/
def alGet {α : Type} (l : List (String × α)) (k : String) : Option α :=
  (l.find? (fun p => p.1 == k)).map Prod.snd

/-- Python `d[k] = v` on an insertion-ordered dict modelled as an association
list: overwrite the first binding of `k`, otherwise append. -/
def alSet {α : Type} (l : List (String × α)) (k : String) (v : α) :
    List (String × α) :=
  match l with
  | [] => [(k, v)]
  | (k', v') :: rest =>
      if k' == k then (k, v) :: rest else (k', v') :: alSet rest k v

/-- A device record as produced by the store (`a{ss}` over D-Bus); its
contents are opaque to `ui.py`, which only moves it around. -/
structure Device where
  fields : List (String × String)
deriving DecidableEq, Repr

/-- Entry of `Devices.device_list` for one pan user: user id → device id →
device record. -/
abbrev DeviceStore := List (String × List (String × Device))

/-- A flat sequence of device records, as returned by the device query
methods (`aa{ss}` over D-Bus). -/
abbrev DeviceList := List Device

/-- The storage collaborator `PanStore`, reduced to the snapshot queries
`ui.py` consumes (`load_users`, `load_all_devices`). -/
structure PanStore where
  load_users : String → List (String × String)
  load_all_devices : List (String × DeviceStore)

/-- A server entry of `server_list`; `ui.py` reads only its `name`. -/
structure ServerConfig where
  name : String
deriving DecidableEq, Repr

/-- Modelled from the spec: the outbound Command Message variants of
`pantalaimon/thread_messages.py` (that file is outside the given sources).
Per the spec's data model every variant carries its correlation id first,
then its kind-specific fields, exactly as `ui.py` constructs them. -/
inductive ThreadMessage where
  | ExportKeysMessage (message_id : Nat)
      (pan_user file_path passphrase : String)
  | ImportKeysMessage (message_id : Nat)
      (pan_user file_path passphrase : String)
  | SendAnywaysMessage (message_id : Nat) (pan_user room_id : String)
  | CancelSendingMessage (message_id : Nat) (pan_user room_id : String)
  | DeviceVerifyMessage (message_id : Nat)
      (pan_user user_id device_id : String)
  | DeviceUnverifyMessage (message_id : Nat)
      (pan_user user_id device_id : String)
  | DeviceBlacklistMessage (message_id : Nat)
      (pan_user user_id device_id : String)
  | DeviceUnblacklistMessage (message_id : Nat)
      (pan_user user_id device_id : String)
  | StartSasMessage (message_id : Nat)
      (pan_user user_id device_id : String)
  | CancelSasMessage (message_id : Nat)
      (pan_user user_id device_id : String)
  | AcceptSasMessage (message_id : Nat)
      (pan_user user_id device_id : String)
  | ConfirmSasMessage (message_id : Nat)
      (pan_user user_id device_id : String)
deriving DecidableEq, Repr

/-- Mirrors `message.message_id` of a Command Message. -/
def ThreadMessage.message_id : ThreadMessage → Nat
  | .ExportKeysMessage i _ _ _ => i
  | .ImportKeysMessage i _ _ _ => i
  | .SendAnywaysMessage i _ _ => i
  | .CancelSendingMessage i _ _ => i
  | .DeviceVerifyMessage i _ _ _ => i
  | .DeviceUnverifyMessage i _ _ _ => i
  | .DeviceBlacklistMessage i _ _ _ => i
  | .DeviceUnblacklistMessage i _ _ _ => i
  | .StartSasMessage i _ _ _ => i
  | .CancelSasMessage i _ _ _ => i
  | .AcceptSasMessage i _ _ _ => i
  | .ConfirmSasMessage i _ _ _ => i

/-- Modelled from the spec: the inbound Event Message variants of
`pantalaimon/thread_messages.py`, with the fields `ui.py` reads.
`OtherMessage` stands for any event kind outside the dispatch table
(`message_callback`'s `isinstance` chain has no `else` branch). -/
inductive EventMessage where
  | UpdateDevicesMessage
  | UpdateUsersMessage
  | UnverifiedDevicesSignal (pan_user room_id room_display_name : String)
  | InviteSasSignal (pan_user user_id device_id transaction_id : String)
  | ShowSasSignal (pan_user user_id device_id transaction_id : String)
      (emoji : List (String × String))
  | SasDoneSignal (pan_user user_id device_id transaction_id : String)
  | DaemonResponse (message_id : Nat) (pan_user code message : String)
  | OtherMessage (payload : String)
deriving DecidableEq, Repr

/-- The shared mutable state of the bridge: the one `IdCounter` instance
and outbound queue shared by `Control` and `Devices`, both caches, the
inbound queue, and the dispatch-loop bookkeeping of `GlibT`. -/
structure BridgeState where
  /-- Mirrors `IdCounter._message_id` of the single shared allocator instance. -/
  counter : Nat
  /-- outbound FIFO (`send_queue`); `queue.put` appends at the end. -/
  send_queue : List ThreadMessage
  /-- inbound FIFO (`receive_queue`); `get_nowait` removes the head. -/
  receive_queue : List EventMessage
  /-- Mirrors `Control.users`: server name → list of (pan user, state) pairs. -/
  users : List (String × List (String × String))
  /-- Mirrors `Devices.device_list`: pan user → user id → device id → record. -/
  device_list : List (String × DeviceStore)
  server_list : List ServerConfig
  store : PanStore
  /-- Mirrors `GlibT.notifications`. -/
  notifications : Bool
  /-- number of `receive_queue.task_done()` calls so far. -/
  tasks_done : Nat

namespace IdCounter

/-- Mirrors `IdCounter.message_id`: returns the current value and advances the
counter by one.  First component is the returned id, second the new
counter state. -/
def message_id (c : Nat) : Nat × Nat := (c, c + 1)

/-- Ids of `n` successive calls to `message_id` starting from counter state `c`:
the list of returned ids. -/
def run : Nat → Nat → List Nat
  | 0, _ => []
  | n + 1, c => (message_id c).1 :: run n (message_id c).2

end IdCounter

namespace Control

/-- Mirrors `Control.update_users`: for every configured server, overwrite that
server's entry of the `users` cache with the store's current snapshot. -/
def update_users (st : BridgeState) : BridgeState :=
  let users := st.server_list.foldl
    (fun u s => alSet u s.name (st.store.load_users s.name)) st.users
  { st with users := users }

/-- Mirrors `Control.ListServers`: return the `users` cache (a pure read). -/
def ListServers (st : BridgeState) :
    List (String × List (String × String)) × BridgeState :=
  (st.users, st)

/-- Mirrors `Control.ExportKeys`. -/
def ExportKeys (st : BridgeState) (pan_user file_path passphrase : String) :
    Nat × BridgeState :=
  let p := IdCounter.message_id st.counter
  let message := ThreadMessage.ExportKeysMessage p.1 pan_user file_path
    passphrase
  (message.message_id,
    { st with counter := p.2, send_queue := st.send_queue ++ [message] })

/-- Mirrors `Control.ImportKeys`. -/
def ImportKeys (st : BridgeState) (pan_user file_path passphrase : String) :
    Nat × BridgeState :=
  let p := IdCounter.message_id st.counter
  let message := ThreadMessage.ImportKeysMessage p.1 pan_user file_path
    passphrase
  (message.message_id,
    { st with counter := p.2, send_queue := st.send_queue ++ [message] })

/-- Mirrors `Control.SendAnyways`. -/
def SendAnyways (st : BridgeState) (pan_user room_id : String) :
    Nat × BridgeState :=
  let p := IdCounter.message_id st.counter
  let message := ThreadMessage.SendAnywaysMessage p.1 pan_user room_id
  (message.message_id,
    { st with counter := p.2, send_queue := st.send_queue ++ [message] })

/-- Mirrors `Control.CancelSending`. -/
def CancelSending (st : BridgeState) (pan_user room_id : String) :
    Nat × BridgeState :=
  let p := IdCounter.message_id st.counter
  let message := ThreadMessage.CancelSendingMessage p.1 pan_user room_id
  (message.message_id,
    { st with counter := p.2, send_queue := st.send_queue ++ [message] })

end Control

namespace Devices

/-- Mirrors `Devices.update_devices`: replace the `device_list` cache with the
store's snapshot. -/
def update_devices (st : BridgeState) : BridgeState :=
  { st with device_list := st.store.load_all_devices }

/-- Mirrors `Devices.List`: all device records of one pan user, flattened across
its users; `[]` when the pan user is unknown (or its store is empty,
Python falsiness). -/
def List (st : BridgeState) (pan_user : String) :
    DeviceList × BridgeState :=
  match alGet st.device_list pan_user with
  | none => ([], st)
  | some device_store =>
      if device_store.isEmpty then ([], st)
      else ((device_store.map (fun p => p.2.map Prod.snd)).flatten, st)

/-- Mirrors `Devices.ListUserDevices`: the device records of one user of one pan
user; `[]` when either is unknown (or empty, Python falsiness). -/
def ListUserDevices (st : BridgeState) (pan_user user_id : String) :
    DeviceList × BridgeState :=
  match alGet st.device_list pan_user with
  | none => ([], st)
  | some device_store =>
      if device_store.isEmpty then ([], st)
      else
        match alGet device_store user_id with
        | none => ([], st)
        | some device_list =>
            if device_list.isEmpty then ([], st)
            else (device_list.map Prod.snd, st)

/-- Mirrors `Devices.Verify`. -/
def Verify (st : BridgeState) (pan_user user_id device_id : String) :
    Nat × BridgeState :=
  let p := IdCounter.message_id st.counter
  let message := ThreadMessage.DeviceVerifyMessage p.1 pan_user user_id
    device_id
  (message.message_id,
    { st with counter := p.2, send_queue := st.send_queue ++ [message] })

/-- Mirrors `Devices.Unverify`. -/
def Unverify (st : BridgeState) (pan_user user_id device_id : String) :
    Nat × BridgeState :=
  let p := IdCounter.message_id st.counter
  let message := ThreadMessage.DeviceUnverifyMessage p.1 pan_user user_id
    device_id
  (message.message_id,
    { st with counter := p.2, send_queue := st.send_queue ++ [message] })

/-- Mirrors `Devices.Blacklist`. -/
def Blacklist (st : BridgeState) (pan_user user_id device_id : String) :
    Nat × BridgeState :=
  let p := IdCounter.message_id st.counter
  let message := ThreadMessage.DeviceBlacklistMessage p.1 pan_user user_id
    device_id
  (message.message_id,
    { st with counter := p.2, send_queue := st.send_queue ++ [message] })

/-- Mirrors `Devices.Unblacklist`. -/
def Unblacklist (st : BridgeState) (pan_user user_id device_id : String) :
    Nat × BridgeState :=
  let p := IdCounter.message_id st.counter
  let message := ThreadMessage.DeviceUnblacklistMessage p.1 pan_user
    user_id device_id
  (message.message_id,
    { st with counter := p.2, send_queue := st.send_queue ++ [message] })

/-- Mirrors `Devices.StartKeyVerification`. -/
def StartKeyVerification (st : BridgeState)
    (pan_user user_id device_id : String) : Nat × BridgeState :=
  let p := IdCounter.message_id st.counter
  let message := ThreadMessage.StartSasMessage p.1 pan_user user_id
    device_id
  (message.message_id,
    { st with counter := p.2, send_queue := st.send_queue ++ [message] })

/-- Mirrors `Devices.CancelKeyVerification`. -/
def CancelKeyVerification (st : BridgeState)
    (pan_user user_id device_id : String) : Nat × BridgeState :=
  let p := IdCounter.message_id st.counter
  let message := ThreadMessage.CancelSasMessage p.1 pan_user user_id
    device_id
  (message.message_id,
    { st with counter := p.2, send_queue := st.send_queue ++ [message] })

/-- Mirrors `Devices.ConfirmKeyVerification`. -/
def ConfirmKeyVerification (st : BridgeState)
    (pan_user user_id device_id : String) : Nat × BridgeState :=
  let p := IdCounter.message_id st.counter
  let message := ThreadMessage.ConfirmSasMessage p.1 pan_user user_id
    device_id
  (message.message_id,
    { st with counter := p.2, send_queue := st.send_queue ++ [message] })

/-- Mirrors `Devices.AcceptKeyVerification`. -/
def AcceptKeyVerification (st : BridgeState)
    (pan_user user_id device_id : String) : Nat × BridgeState :=
  let p := IdCounter.message_id st.counter
  let message := ThreadMessage.AcceptSasMessage p.1 pan_user user_id
    device_id
  (message.message_id,
    { st with counter := p.2, send_queue := st.send_queue ++ [message] })

end Devices

/-- Outward D-Bus signals emitted by the dispatch loop (the `signal()`
members of `Control` and `Devices`, with the argument lists `ui.py`
passes). -/
inductive SignalOut where
  | Response (id : Nat) (pan_user : String)
      (message : List (String × String))
  | UnverifiedDevices (pan_user room_id room_display_name : String)
  | VerificationInvite (pan_user user_id device_id transaction_id : String)
  | VerificationString (pan_user user_id device_id transaction_id : String)
      (emoji : List (String × String))
  | VerificationDone (pan_user user_id device_id transaction_id : String)
deriving DecidableEq, Repr

/-- Which notification-action closure a rendered action is bound to
(`send_cb`, the two `cancel_cb`s, `accept_cb`, `confirm_cb`). -/
inductive CallbackKind where
  | sendCb
  | cancelSendingCb
  | acceptCb
  | cancelSasCb
  | confirmCb
deriving DecidableEq, Repr

/-- One `notificaton.add_action(action_key, label, cb, message)` call: the
closure is identified by its kind plus the captured `user_data`. -/
structure NotifAction where
  action_key : String
  label : String
  cb : CallbackKind
  user_data : EventMessage
deriving DecidableEq, Repr

/-- A rendered `notify2.Notification`. -/
structure Notification where
  summary : String
  message : String
  category : String
  actions : List NotifAction
deriving DecidableEq, Repr

namespace GlibT

/-- Mirrors `GlibT.unverified_notification`.  `server_caps` is what
`notify2.get_server_caps()` currently returns; the second component
counts the `get_server_caps` calls this rendering performs (one). -/
def unverified_notification (server_caps : List String)
    (pan_user room_id room_display_name : String) : Notification × Nat :=
  let disp := room_display_name
  let notificaton : Notification :=
    { summary := "Unverified devices.",
      message := s!"There are unverified devices in the room {disp}.",
      category := "im", actions := [] }
  let m := EventMessage.UnverifiedDevicesSignal pan_user room_id
    room_display_name
  let notificaton :=
    if server_caps.contains "actions" then
      { notificaton with actions :=
          [⟨"send", "Send anyways", CallbackKind.sendCb, m⟩,
           ⟨"cancel", "Cancel sending", CallbackKind.cancelSendingCb, m⟩] }
    else notificaton
  (notificaton, 1)

/-- Mirrors `GlibT.sas_invite_notification` (one `get_server_caps` call). -/
def sas_invite_notification (server_caps : List String)
    (pan_user user_id device_id transaction_id : String) :
    Notification × Nat :=
  let user := user_id
  let dev := device_id
  let notificaton : Notification :=
    { summary := "Key verification invite",
      message :=
        s!"{user} via {dev} has started a key verification process.",
      category := "im", actions := [] }
  let m := EventMessage.InviteSasSignal pan_user user_id device_id
    transaction_id
  let notificaton :=
    if server_caps.contains "actions" then
      { notificaton with actions :=
          [⟨"accept", "Accept", CallbackKind.acceptCb, m⟩,
           ⟨"cancel", "Cancel", CallbackKind.cancelSasCb, m⟩] }
    else notificaton
  (notificaton, 1)

/-- Mirrors `GlibT.sas_show_notification` (one `get_server_caps` call). -/
def sas_show_notification (server_caps : List String)
    (pan_user user_id device_id transaction_id : String)
    (emoji : List (String × String)) : Notification × Nat :=
  let emojis := emoji.map Prod.fst
  let emoji_str := String.intercalate "   " emojis
  let user := user_id
  let dev := device_id
  let notificaton : Notification :=
    { summary := "Short authentication string",
      message :=
        s!"Short authentication string for the key verification of {user} via {dev}:\n{emoji_str}",
      category := "im", actions := [] }
  let m := EventMessage.ShowSasSignal pan_user user_id device_id
    transaction_id emoji
  let notificaton :=
    if server_caps.contains "actions" then
      { notificaton with actions :=
          [⟨"confirm", "Confirm", CallbackKind.confirmCb, m⟩,
           ⟨"cancel", "Cancel", CallbackKind.cancelSasCb, m⟩] }
    else notificaton
  (notificaton, 1)

/-- Mirrors `GlibT.sas_done_notification`: informational, no actions, and no
`get_server_caps` call at all. -/
def sas_done_notification (pan_user user_id device_id transaction_id :
    String) : Notification × Nat :=
  let user := user_id
  let dev := device_id
  ({ summary := "Device successfully verified.",
     message := s!"Device {dev} of user {user} successfully verified.",
     category := "im", actions := [] }, 0)

/-- Mirrors `send_cb` of `unverified_notification`: re-issues `SendAnyways` with
the captured message's fields.  The catch-all branch is unreachable in
the program: the action only ever captures an `UnverifiedDevicesSignal`. -/
def send_cb (st : BridgeState) (user_data : EventMessage) : BridgeState :=
  match user_data with
  | EventMessage.UnverifiedDevicesSignal pan_user room_id _ =>
      (Control.SendAnyways st pan_user room_id).2
  | _ => st

/-- Mirrors `cancel_cb` of `unverified_notification`: re-issues `CancelSending`. -/
def cancel_sending_cb (st : BridgeState) (user_data : EventMessage) :
    BridgeState :=
  match user_data with
  | EventMessage.UnverifiedDevicesSignal pan_user room_id _ =>
      (Control.CancelSending st pan_user room_id).2
  | _ => st

/-- Mirrors `accept_cb` of `sas_invite_notification`. -/
def accept_cb (st : BridgeState) (user_data : EventMessage) : BridgeState :=
  match user_data with
  | EventMessage.InviteSasSignal pan_user user_id device_id _ =>
      (Devices.AcceptKeyVerification st pan_user user_id device_id).2
  | _ => st

/-- Mirrors `cancel_cb` of `sas_invite_notification` and
`sas_show_notification`. -/
def cancel_sas_cb (st : BridgeState) (user_data : EventMessage) :
    BridgeState :=
  match user_data with
  | EventMessage.InviteSasSignal pan_user user_id device_id _ =>
      (Devices.CancelKeyVerification st pan_user user_id device_id).2
  | EventMessage.ShowSasSignal pan_user user_id device_id _ _ =>
      (Devices.CancelKeyVerification st pan_user user_id device_id).2
  | _ => st

/-- Mirrors `confirm_cb` of `sas_show_notification`. -/
def confirm_cb (st : BridgeState) (user_data : EventMessage) :
    BridgeState :=
  match user_data with
  | EventMessage.ShowSasSignal pan_user user_id device_id _ _ =>
      (Devices.ConfirmKeyVerification st pan_user user_id device_id).2
  | _ => st

end GlibT

/-- The user triggers a rendered notification action: the bound closure
runs against the current bridge state. -/
def NotifAction.trigger (a : NotifAction) (st : BridgeState) :
    BridgeState :=
  match a.cb with
  | CallbackKind.sendCb => GlibT.send_cb st a.user_data
  | CallbackKind.cancelSendingCb => GlibT.cancel_sending_cb st a.user_data
  | CallbackKind.acceptCb => GlibT.accept_cb st a.user_data
  | CallbackKind.cancelSasCb => GlibT.cancel_sas_cb st a.user_data
  | CallbackKind.confirmCb => GlibT.confirm_cb st a.user_data

/-- What one dispatch tick produced besides the new state. -/
structure TickOut where
  signals : List SignalOut
  notifs : List Notification
  /-- Count of `notify2.get_server_caps()` calls made during the tick. -/
  caps_queries : Nat
  /-- the value returned to `GLib.timeout_add` (`True` keeps the tick
  scheduled). -/
  cont : Bool
deriving DecidableEq, Repr

namespace GlibT

/-- The `isinstance` chain of `GlibT.message_callback`, applied to the
dequeued message: new state, emitted signals, rendered notifications,
`get_server_caps` call count.  Unrecognized kinds fall through (there is
no `else` branch in the source). -/
def dispatch (server_caps : List String) (message : EventMessage)
    (st : BridgeState) :
    BridgeState × List SignalOut × List Notification × Nat :=
  match message with
  | EventMessage.UpdateDevicesMessage =>
      (Devices.update_devices st, [], [], 0)
  | EventMessage.UpdateUsersMessage =>
      (Control.update_users st, [], [], 0)
  | EventMessage.UnverifiedDevicesSignal pan room disp =>
      let signals := [SignalOut.UnverifiedDevices pan room disp]
      if st.notifications then
        let n := unverified_notification server_caps pan room disp
        (st, signals, [n.1], n.2)
      else (st, signals, [], 0)
  | EventMessage.InviteSasSignal pan user dev tx =>
      let signals := [SignalOut.VerificationInvite pan user dev tx]
      if st.notifications then
        let n := sas_invite_notification server_caps pan user dev tx
        (st, signals, [n.1], n.2)
      else (st, signals, [], 0)
  | EventMessage.ShowSasSignal pan user dev tx emoji =>
      let signals := [SignalOut.VerificationString pan user dev tx emoji]
      if st.notifications then
        let n := sas_show_notification server_caps pan user dev tx emoji
        (st, signals, [n.1], n.2)
      else (st, signals, [], 0)
  | EventMessage.SasDoneSignal pan user dev tx =>
      let signals := [SignalOut.VerificationDone pan user dev tx]
      if st.notifications then
        let n := sas_done_notification pan user dev tx
        (st, signals, [n.1], n.2)
      else (st, signals, [], 0)
  | EventMessage.DaemonResponse mid pan code msg =>
      (st,
        [SignalOut.Response mid pan [("code", code), ("message", msg)]],
        [], 0)
  | EventMessage.OtherMessage _ => (st, [], [], 0)

/-- Mirrors `GlibT.message_callback`: one dispatch tick.  `get_nowait` either
yields the queue head or raises `Empty` (the empty-queue branch); after
handling, `task_done` is called and `True` returned. -/
def message_callback (server_caps : List String) (st : BridgeState) :
    BridgeState × TickOut :=
  match st.receive_queue with
  | [] =>
      (st, { signals := [], notifs := [], caps_queries := 0, cont := true })
  | message :: rest =>
      let r := dispatch server_caps message
        { st with receive_queue := rest }
      ({ r.1 with tasks_done := r.1.tasks_done + 1 },
        { signals := r.2.1, notifs := r.2.2.1, caps_queries := r.2.2.2,
          cont := true })

/-- Runs `T` successive dispatch ticks (the periodic `GLib.timeout_add`
invocations), collecting each tick's output. -/
def ticksRun (server_caps : List String) :
    Nat → BridgeState → BridgeState × List TickOut
  | 0, st => (st, [])
  | n + 1, st =>
      let r := message_callback server_caps st
      let rest := ticksRun server_caps n r.1
      (rest.1, r.2 :: rest.2)

/-- The notification setup of `GlibT.run`: when notifications are
configured, `notify2.init` either succeeds (flag set) or raises
`dbus.DBusException`, which is caught, logged once, and disables the
flag.  Second component: error lines logged; third component: the number
of `notify2.get_server_caps` calls `run` performs, which is zero — the
body of `run` contains no such call (action-support capability is only
queried inside the notification-rendering helpers). -/
def run_init (config_notifications : Bool) (init_succeeds : Bool)
    (st : BridgeState) : BridgeState × Nat × Nat :=
  if config_notifications then
    if init_succeeds then ({ st with notifications := true }, 0, 0)
    else ({ st with notifications := false }, 1, 0)
  else (st, 0, 0)

/-- Mirrors `GlibT.__attrs_post_init__`: one shared `IdCounter` starting at 0 is
handed to both `Control` (whose constructor runs `update_users` on an
empty cache) and `Devices` (whose constructor runs `update_devices`). -/
def attrs_post_init (server_list : List ServerConfig) (store : PanStore) :
    BridgeState :=
  Devices.update_devices (Control.update_users
    { counter := 0, send_queue := [], receive_queue := [],
      users := [], device_list := [], server_list := server_list,
      store := store, notifications := false, tasks_done := 0 })

end GlibT

/-- One externally invocable command operation of either surface; both
surfaces go through the same shared state (allocator and queue). -/
inductive CommandOp where
  | exportKeys (pan_user file_path passphrase : String)
  | importKeys (pan_user file_path passphrase : String)
  | sendAnyways (pan_user room_id : String)
  | cancelSending (pan_user room_id : String)
  | verify (pan_user user_id device_id : String)
  | unverify (pan_user user_id device_id : String)
  | blacklist (pan_user user_id device_id : String)
  | unblacklist (pan_user user_id device_id : String)
  | startKeyVerification (pan_user user_id device_id : String)
  | cancelKeyVerification (pan_user user_id device_id : String)
  | acceptKeyVerification (pan_user user_id device_id : String)
  | confirmKeyVerification (pan_user user_id device_id : String)
deriving DecidableEq, Repr

/-- Run one command operation: the D-Bus method call, returning the
correlation id. -/
def runOp : CommandOp → BridgeState → Nat × BridgeState
  | .exportKeys a b c, st => Control.ExportKeys st a b c
  | .importKeys a b c, st => Control.ImportKeys st a b c
  | .sendAnyways a b, st => Control.SendAnyways st a b
  | .cancelSending a b, st => Control.CancelSending st a b
  | .verify a b c, st => Devices.Verify st a b c
  | .unverify a b c, st => Devices.Unverify st a b c
  | .blacklist a b c, st => Devices.Blacklist st a b c
  | .unblacklist a b c, st => Devices.Unblacklist st a b c
  | .startKeyVerification a b c, st => Devices.StartKeyVerification st a b c
  | .cancelKeyVerification a b c, st =>
      Devices.CancelKeyVerification st a b c
  | .acceptKeyVerification a b c, st =>
      Devices.AcceptKeyVerification st a b c
  | .confirmKeyVerification a b c, st =>
      Devices.ConfirmKeyVerification st a b c

/-- The Command Message an operation constructs when the allocator hands
it id `i`. -/
def commandMessage : CommandOp → Nat → ThreadMessage
  | .exportKeys a b c, i => ThreadMessage.ExportKeysMessage i a b c
  | .importKeys a b c, i => ThreadMessage.ImportKeysMessage i a b c
  | .sendAnyways a b, i => ThreadMessage.SendAnywaysMessage i a b
  | .cancelSending a b, i => ThreadMessage.CancelSendingMessage i a b
  | .verify a b c, i => ThreadMessage.DeviceVerifyMessage i a b c
  | .unverify a b c, i => ThreadMessage.DeviceUnverifyMessage i a b c
  | .blacklist a b c, i => ThreadMessage.DeviceBlacklistMessage i a b c
  | .unblacklist a b c, i => ThreadMessage.DeviceUnblacklistMessage i a b c
  | .startKeyVerification a b c, i => ThreadMessage.StartSasMessage i a b c
  | .cancelKeyVerification a b c, i => ThreadMessage.CancelSasMessage i a b c
  | .acceptKeyVerification a b c, i => ThreadMessage.AcceptSasMessage i a b c
  | .confirmKeyVerification a b c, i =>
      ThreadMessage.ConfirmSasMessage i a b c

/-- Run a program-order sequence of command operations, collecting the
returned correlation ids. -/
def runOps : List CommandOp → BridgeState → List Nat × BridgeState
  | [], st => ([], st)
  | op :: ops, st =>
      let r := runOp op st
      let rest := runOps ops r.2
      (r.1 :: rest.1, rest.2)

/-! Concrete fixtures used to evaluate the development on closed inputs. -/

/-- A sample device record. -/
def deviceW : Device :=
  ⟨[("device_id", "DEVID"), ("display_name", "Alice Phone")]⟩

/-- A sample store snapshot: one homeserver with one live user, one pan
user owning one remote user with one device. -/
def storeW : PanStore :=
  { load_users := fun s =>
      if s = "example.org" then [("@alice:example.org", "live")] else [],
    load_all_devices :=
      [("pan@example.org",
        [("@bob:example.org", [("DEVID", deviceW)])])] }

/-- A sample server list with one configured homeserver. -/
def serversW : List ServerConfig := [⟨"example.org"⟩]

/-- The bridge state right after `GlibT.__attrs_post_init__`. -/
def stW : BridgeState := GlibT.attrs_post_init serversW storeW

/-- A sample program-order trace mixing Control and Devices commands. -/
def opsW : List CommandOp :=
  [CommandOp.exportKeys "alice" "/tmp/k.txt" "pw",
   CommandOp.verify "alice" "@bob:example.org" "DEVID",
   CommandOp.sendAnyways "alice" "!r:example"]

/-- Sample state whose inbound queue holds one daemon response. -/
def stC2 : BridgeState :=
  { stW with receive_queue :=
      [EventMessage.DaemonResponse 0 "alice" "0" "ok"] }

/-- Sample state with notifications enabled and a queued daemon
response. -/
def stC10 : BridgeState := { stC2 with notifications := true }

/-- Sample state with three queued events. -/
def stC4 : BridgeState :=
  { stW with receive_queue :=
      [EventMessage.UpdateUsersMessage, EventMessage.UpdateDevicesMessage,
       EventMessage.SasDoneSignal "alice" "@bob:example.org" "DEVID" "tx"] }

/-- Sample state whose users cache still holds a stale prior snapshot and
whose queue holds an UpdateUsers event. -/
def stC5 : BridgeState :=
  { stW with receive_queue := [EventMessage.UpdateUsersMessage],
             users := [("example.org", [("@old:example.org", "stale")])] }

/-- Sample state with notifications enabled and two queued
unverified-devices events. -/
def stC8 : BridgeState :=
  { stW with notifications := true,
             receive_queue :=
               [EventMessage.UnverifiedDevicesSignal "alice" "!r:example"
                  "room",
                EventMessage.UnverifiedDevicesSignal "alice" "!s:example"
                  "den"] }

/-- Same two queued events, notifications disabled. -/
def stC8b : BridgeState := { stC8 with notifications := false }

/-- Sample state whose queue head is an unrecognized event kind. -/
def stC7 : BridgeState :=
  { stW with receive_queue :=
      [EventMessage.OtherMessage "UnknownMessageKind"] }

/-! Helper lemmas about the association-list model. -/

theorem alGet_nil {α : Type} (k : String) : alGet ([] : List (String × α)) k = none := rfl

theorem alGet_cons {α : Type} (k1 : String) (v1 : α) (l : List (String × α)) (k : String) :
    alGet ((k1, v1) :: l) k = if k1 == k then some v1 else alGet l k := by
  cases h : (k1 == k) <;> simp [alGet, List.find?, h]

theorem alGet_alSet {α : Type} (l : List (String × α)) (k k' : String) (v : α) :
    alGet (alSet l k v) k' = if k' = k then some v else alGet l k' := by
  induction l with
  | nil =>
      by_cases h : k' = k
      · subst h; simp [alSet, alGet_cons]
      · have h' : (k == k') = false := by
          simp only [beq_eq_false_iff_ne, ne_eq]
          exact fun e => h e.symm
        simp [alSet, alGet_cons, alGet_nil, h, h']
  | cons p rest ih =>
      obtain ⟨k1, v1⟩ := p
      by_cases h1 : k1 = k
      · subst h1
        by_cases h2 : k' = k1
        · subst h2; simp [alSet, alGet_cons]
        · have e1 : (k1 == k') = false := by
            simp only [beq_eq_false_iff_ne, ne_eq]
            exact fun e => h2 e.symm
          simp [alSet, alGet_cons, e1, h2]
      · have h1b : (k1 == k) = false := by simp [h1]
        by_cases h2 : k' = k1
        · subst h2
          simp [alSet, h1b, alGet_cons, h1]
        · have h2b : (k1 == k') = false := by
            simp only [beq_eq_false_iff_ne, ne_eq]
            exact fun e => h2 e.symm
          simp [alSet, h1b, alGet_cons, h2b, ih, h2]

theorem alGet_mem {α : Type} (l : List (String × α)) (k : String) (v : α)
    (h : alGet l k = some v) : (k, v) ∈ l := by
  induction l with
  | nil => simp [alGet, List.find?] at h
  | cons p rest ih =>
      obtain ⟨k1, v1⟩ := p
      rw [alGet_cons] at h
      by_cases h1 : (k1 == k) = true
      · rw [if_pos h1] at h
        obtain rfl := Option.some_injective _ h
        have : k1 = k := by simpa using h1
        subst this
        exact List.mem_cons_self _ _
      · rw [if_neg h1] at h
        exact List.mem_cons_of_mem _ (ih h)

theorem alGet_foldl_alSet {α : Type} (f : String → α) (sl : List ServerConfig)
    (u : List (String × α)) (k : String) :
    alGet (sl.foldl (fun u s => alSet u s.name (f s.name)) u) k =
      if k ∈ sl.map ServerConfig.name then some (f k) else alGet u k := by
  induction sl generalizing u with
  | nil => simp
  | cons s rest ih =>
      rw [List.foldl_cons, ih, alGet_alSet]
      by_cases hr : k ∈ rest.map ServerConfig.name
      · simp [hr]
      · by_cases hs : k = s.name <;> simp [hr, hs]

/-! Helper lemmas about the command operations and the dispatch loop. -/

theorem commandMessage_message_id (op : CommandOp) (i : Nat) :
    (commandMessage op i).message_id = i := by
  cases op <;> rfl

theorem runOp_fst (op : CommandOp) (st : BridgeState) :
    (runOp op st).1 = st.counter := by
  cases op <;> rfl

theorem runOp_snd (op : CommandOp) (st : BridgeState) :
    (runOp op st).2 =
      { st with counter := st.counter + 1,
                send_queue := st.send_queue ++ [commandMessage op st.counter] } := by
  cases op <;> rfl

theorem runOps_fst (ops : List CommandOp) (st : BridgeState) :
    (runOps ops st).1 = List.range' st.counter ops.length := by
  induction ops generalizing st with
  | nil => simp [runOps]
  | cons op ops ih =>
      simp [runOps, runOp_fst, ih, runOp_snd, List.range']

theorem runOps_counter (ops : List CommandOp) (st : BridgeState) :
    (runOps ops st).2.counter = st.counter + ops.length := by
  induction ops generalizing st with
  | nil => simp [runOps]
  | cons op ops ih =>
      simp [runOps, ih, runOp_snd]
      omega

theorem dispatch_frame (caps : List String) (m : EventMessage)
    (st : BridgeState) :
    (GlibT.dispatch caps m st).1.receive_queue = st.receive_queue ∧
    (GlibT.dispatch caps m st).1.tasks_done = st.tasks_done ∧
    (GlibT.dispatch caps m st).1.notifications = st.notifications ∧
    (GlibT.dispatch caps m st).1.counter = st.counter ∧
    (GlibT.dispatch caps m st).1.send_queue = st.send_queue := by
  cases m <;> cases hn : st.notifications <;>
    simp [GlibT.dispatch, Devices.update_devices, Control.update_users, hn]

theorem message_callback_empty (caps : List String) (st : BridgeState)
    (h : st.receive_queue = []) :
    GlibT.message_callback caps st =
      (st, { signals := [], notifs := [], caps_queries := 0, cont := true }) := by
  simp [GlibT.message_callback, h]

theorem message_callback_cont (caps : List String) (st : BridgeState) :
    (GlibT.message_callback caps st).2.cont = true := by
  cases h : st.receive_queue <;> simp [GlibT.message_callback, h]

theorem message_callback_cons (caps : List String) (st : BridgeState)
    (m : EventMessage) (rest : List EventMessage)
    (h : st.receive_queue = m :: rest) :
    (GlibT.message_callback caps st).1.receive_queue = rest ∧
    (GlibT.message_callback caps st).1.tasks_done = st.tasks_done + 1 ∧
    (GlibT.message_callback caps st).1.notifications = st.notifications := by
  have hd := dispatch_frame caps m { st with receive_queue := rest }
  simp only [GlibT.message_callback, h]
  exact ⟨hd.1, by rw [hd.2.1], hd.2.2.1⟩

theorem message_callback_notifications (caps : List String)
    (st : BridgeState) :
    (GlibT.message_callback caps st).1.notifications = st.notifications := by
  cases h : st.receive_queue with
  | nil => rw [message_callback_empty caps st h]
  | cons m rest => exact (message_callback_cons caps st m rest h).2.2

theorem message_callback_notifs_empty (caps : List String)
    (st : BridgeState) (h : st.notifications = false) :
    (GlibT.message_callback caps st).2.notifs = [] := by
  cases hq : st.receive_queue with
  | nil => simp [GlibT.message_callback, hq]
  | cons m rest =>
      cases m <;> simp [GlibT.message_callback, hq, GlibT.dispatch, h]

theorem ticksRun_queue (caps : List String) :
    ∀ (T : Nat) (st : BridgeState), T ≤ st.receive_queue.length →
      (GlibT.ticksRun caps T st).1.receive_queue =
          st.receive_queue.drop T ∧
        (GlibT.ticksRun caps T st).1.tasks_done = st.tasks_done + T := by
  intro T
  induction T with
  | zero => intro st _; simp [GlibT.ticksRun]
  | succ n ih =>
      intro st h
      cases hq : st.receive_queue with
      | nil => rw [hq] at h; simp at h
      | cons m rest =>
          have hc := message_callback_cons caps st m rest hq
          have h1 : n ≤ (GlibT.message_callback caps st).1.receive_queue.length := by
            rw [hc.1]
            rw [hq] at h
            simpa using Nat.le_of_succ_le_succ h
          have hrec := ih (GlibT.message_callback caps st).1 h1
          constructor
          · simp only [GlibT.ticksRun]
            rw [hrec.1, hc.1]
            simp [List.drop_succ_cons]
          · simp only [GlibT.ticksRun]
            rw [hrec.2, hc.2.1]
            omega

theorem ticksRun_notifications (caps : List String) :
    ∀ (T : Nat) (st : BridgeState),
      (GlibT.ticksRun caps T st).1.notifications = st.notifications := by
  intro T
  induction T with
  | zero => intro st; rfl
  | succ n ih =>
      intro st
      simp only [GlibT.ticksRun]
      rw [ih, message_callback_notifications]

theorem ticksRun_disabled (caps : List String) :
    ∀ (T : Nat) (st : BridgeState), st.notifications = false →
      ∀ out ∈ (GlibT.ticksRun caps T st).2,
        out.notifs = [] ∧ out.cont = true := by
  intro T
  induction T with
  | zero => intro st _ out hout; simp [GlibT.ticksRun] at hout
  | succ n ih =>
      intro st h out hout
      simp only [GlibT.ticksRun, List.mem_cons] at hout
      rcases hout with hout | hout
      · subst hout
        exact ⟨message_callback_notifs_empty caps st h,
          message_callback_cont caps st⟩
      · exact ih (GlibT.message_callback caps st).1
          (by rw [message_callback_notifications, h]) out hout

theorem runOps_send_ids_lt (ops : List CommandOp) (st : BridgeState)
    (h : ∀ m ∈ st.send_queue, m.message_id < st.counter) :
    ∀ m ∈ (runOps ops st).2.send_queue,
      m.message_id < (runOps ops st).2.counter := by
  induction ops generalizing st with
  | nil => simpa [runOps] using h
  | cons op ops ih =>
      intro m hm
      simp only [runOps] at hm ⊢
      refine ih _ ?_ m hm
      intro m' hm'
      rw [runOp_snd] at hm' ⊢
      simp at hm' ⊢
      rcases hm' with hm' | hm'
      · exact Nat.lt_succ_of_lt (h m' hm')
      · subst hm'
        simp [commandMessage_message_id]

/-! The claims. -/

/-- C1: for any sequence of N calls to the Correlation ID Allocator
(`IdCounter.message_id`) the returned ids are exactly 0,1,...,N-1 in call
order; and because the Control and Devices surfaces share one allocator
instance, any program-order sequence of command operations (on either
surface) returns strictly increasing ids. -/
theorem c1_allocator_monotone :
    (∀ N : Nat, IdCounter.run N 0 = List.range N) ∧
    ∀ (st0 : BridgeState), st0.counter = 0 → ∀ (ops : List CommandOp),
      List.Pairwise (· < ·) (runOps ops st0).1 := by
  constructor
  · intro N
    have h : ∀ (n c : Nat), IdCounter.run n c = List.range' c n := by
      intro n
      induction n with
      | zero => intro c; rfl
      | succ k ih =>
          intro c
          simp [IdCounter.run, IdCounter.message_id, ih, List.range']
    rw [h N 0, List.range_eq_range']
  · intro st0 h0 ops
    rw [runOps_fst, h0]
    exact List.pairwise_lt_range' 0 ops.length

/-- Witness for C1 at N = 3 and a concrete mixed Control/Devices trace. -/
theorem c1_allocator_monotone_witness :
    IdCounter.run 3 0 = List.range 3 ∧ stW.counter = 0 ∧
    List.Pairwise (· < ·) (runOps opsW stW).1 :=
  ⟨c1_allocator_monotone.1 3, rfl, c1_allocator_monotone.2 stW rfl opsW⟩

/-- C2: dispatching a DaemonResponse event emits exactly one Response
signal carrying the event's correlation id, its account id, and the
mapping of status code and message; that id equals what the issuing
command operation previously returned whenever the event echoes it. -/
theorem c2_response_correlation :
    ∀ (caps : List String) (st : BridgeState) (mid : Nat)
      (pan code msg : String) (rest : List EventMessage),
      st.receive_queue =
        EventMessage.DaemonResponse mid pan code msg :: rest →
      (GlibT.message_callback caps st).2.signals =
        [SignalOut.Response mid pan [("code", code), ("message", msg)]] ∧
      ∀ (op : CommandOp) (st0 : BridgeState), (runOp op st0).1 = mid →
        (GlibT.message_callback caps st).2.signals =
          [SignalOut.Response (runOp op st0).1 pan
            [("code", code), ("message", msg)]] := by
  intro caps st mid pan code msg rest h
  have h1 : (GlibT.message_callback caps st).2.signals =
      [SignalOut.Response mid pan [("code", code), ("message", msg)]] := by
    simp [GlibT.message_callback, h, GlibT.dispatch]
  exact ⟨h1, fun op st0 hop => by rw [hop]; exact h1⟩

/-- Witness for C2: `ExportKeys` returns id 0 from the fresh state; a
DaemonResponse echoing id 0 produces a Response signal with id 0. -/
theorem c2_response_correlation_witness :
    stC2.receive_queue = [EventMessage.DaemonResponse 0 "alice" "0" "ok"] ∧
    (runOp (CommandOp.exportKeys "alice" "/tmp/k.txt" "pw") stW).1 = 0 ∧
    (GlibT.message_callback [] stC2).2.signals =
      [SignalOut.Response 0 "alice" [("code", "0"), ("message", "ok")]] :=
  ⟨rfl, rfl, (c2_response_correlation [] stC2 0 "alice" "0" "ok" [] rfl).1⟩

/-- C3: every command-issuing operation appends exactly one command
message to the outbound queue, always succeeds (it is a total function of
the state, whatever the queue size), and returns the id embedded in the
enqueued message. -/
theorem c3_command_enqueue (op : CommandOp) (st : BridgeState) :
    (runOp op st).2.send_queue =
      st.send_queue ++ [commandMessage op st.counter] ∧
    (runOp op st).1 = (commandMessage op st.counter).message_id ∧
    (runOp op st).2.counter = st.counter + 1 := by
  refine ⟨?_, ?_, ?_⟩
  · rw [runOp_snd]
  · rw [runOp_fst, commandMessage_message_id]
  · rw [runOp_snd]

/-- C4: a dispatch tick with an empty inbound queue returns immediately
and unchanged; every tick returns the continuation value True; T ticks
with T at most the backlog K process exactly T events and leave K - T
queued. -/
theorem c4_at_most_one_per_tick :
    ∀ (caps : List String) (st : BridgeState),
      (st.receive_queue = [] →
        GlibT.message_callback caps st =
          (st, { signals := [], notifs := [], caps_queries := 0,
                 cont := true })) ∧
      (GlibT.message_callback caps st).2.cont = true ∧
      ∀ (T : Nat), T ≤ st.receive_queue.length →
        (GlibT.ticksRun caps T st).1.receive_queue =
            st.receive_queue.drop T ∧
        (GlibT.ticksRun caps T st).1.tasks_done = st.tasks_done + T := by
  intro caps st
  exact ⟨message_callback_empty caps st, message_callback_cont caps st,
    fun T hT => ticksRun_queue caps T st hT⟩

/-- Witness for C4: two ticks against three queued events process exactly
two and leave one queued. -/
theorem c4_at_most_one_per_tick_witness :
    (2 : Nat) ≤ stC4.receive_queue.length ∧
    (GlibT.ticksRun [] 2 stC4).1.receive_queue =
      stC4.receive_queue.drop 2 ∧
    (GlibT.ticksRun [] 2 stC4).1.tasks_done = stC4.tasks_done + 2 ∧
    (GlibT.message_callback [] stC4).2.cont = true :=
  ⟨by decide,
   ((c4_at_most_one_per_tick [] stC4).2.2 2 (by decide)).1,
   ((c4_at_most_one_per_tick [] stC4).2.2 2 (by decide)).2,
   (c4_at_most_one_per_tick [] stC4).2.1⟩

/-- C5: processing an UpdateUsers event rebuilds the users cache as a
full replacement of the store's latest snapshot: afterwards ListServers
answers exactly that snapshot at every configured server name and none at
any other key, with nothing surviving from the prior cache contents. -/
theorem c5_update_users_full_replacement :
    ∀ (caps : List String) (st : BridgeState) (rest : List EventMessage),
      st.receive_queue = EventMessage.UpdateUsersMessage :: rest →
      (∀ p ∈ st.users, p.1 ∈ st.server_list.map ServerConfig.name) →
      ∀ k : String,
        alGet (Control.ListServers
            (GlibT.message_callback caps st).1).1 k =
          if k ∈ st.server_list.map ServerConfig.name then
            some (st.store.load_users k)
          else none := by
  intro caps st rest h hkeys k
  have husers : (GlibT.message_callback caps st).1.users =
      st.server_list.foldl
        (fun u s => alSet u s.name (st.store.load_users s.name)) st.users := by
    simp [GlibT.message_callback, h, GlibT.dispatch, Control.update_users]
  simp only [Control.ListServers]
  rw [husers, alGet_foldl_alSet]
  by_cases hk : k ∈ st.server_list.map ServerConfig.name
  · simp [hk]
  · simp only [hk, if_false]
    cases hv : alGet st.users k with
    | none => rfl
    | some v => exact absurd (hkeys _ (alGet_mem _ _ _ hv)) hk

/-- Witness for C5: a stale cache entry is fully replaced by the latest
snapshot, and unknown server keys answer none. -/
theorem c5_update_users_full_replacement_witness :
    stC5.receive_queue = [EventMessage.UpdateUsersMessage] ∧
    (∀ p ∈ stC5.users, p.1 ∈ stC5.server_list.map ServerConfig.name) ∧
    alGet (Control.ListServers
        (GlibT.message_callback [] stC5).1).1 "example.org" =
      some [("@alice:example.org", "live")] ∧
    alGet (Control.ListServers
        (GlibT.message_callback [] stC5).1).1 "old.example" = none := by
  have h := c5_update_users_full_replacement [] stC5 [] rfl (by decide)
  refine ⟨rfl, by decide, ?_, ?_⟩
  · rw [h "example.org"]
    decide
  · rw [h "old.example"]
    decide

/-- C6: the queries List and ListUserDevices answer an empty sequence for
an unknown account or unknown user instead of failing, and no query
operation (ListServers, List, ListUserDevices) changes the state — in
particular none enqueues anything. -/
theorem c6_query_safety :
    ∀ (st : BridgeState) (pan_user user_id : String),
      (alGet st.device_list pan_user = none →
        (Devices.List st pan_user).1 = [] ∧
        (Devices.ListUserDevices st pan_user user_id).1 = []) ∧
      (∀ ds, alGet st.device_list pan_user = some ds →
        alGet ds user_id = none →
        (Devices.ListUserDevices st pan_user user_id).1 = []) ∧
      (Devices.List st pan_user).2 = st ∧
      (Devices.ListUserDevices st pan_user user_id).2 = st ∧
      (Control.ListServers st).2 = st := by
  intro st pan_user user_id
  refine ⟨?_, ?_, ?_, ?_, rfl⟩
  · intro h
    constructor <;> simp [Devices.List, Devices.ListUserDevices, h]
  · intro ds h1 h2
    by_cases he : ds.isEmpty <;>
      simp [Devices.ListUserDevices, h1, h2, he]
  · cases h : alGet st.device_list pan_user with
    | none => simp [Devices.List, h]
    | some ds => by_cases he : ds.isEmpty <;> simp [Devices.List, h, he]
  · cases h : alGet st.device_list pan_user with
    | none => simp [Devices.ListUserDevices, h]
    | some ds =>
        by_cases he : ds.isEmpty
        · simp [Devices.ListUserDevices, h, he]
        · cases h2 : alGet ds user_id with
          | none => simp [Devices.ListUserDevices, h, he, h2]
          | some dl =>
              by_cases he2 : dl.isEmpty <;>
                simp [Devices.ListUserDevices, h, he, h2, he2]

/-- Witness for C6: an unknown pan user and an unknown user id at the
populated fixture state. -/
theorem c6_query_safety_witness :
    alGet stW.device_list "nobody" = none ∧
    (Devices.List stW "nobody").1 = [] ∧
    alGet stW.device_list "pan@example.org" =
      some [("@bob:example.org", [("DEVID", deviceW)])] ∧
    alGet [("@bob:example.org", [("DEVID", deviceW)])] "@nobody" = none ∧
    (Devices.ListUserDevices stW "pan@example.org" "@nobody").1 = [] ∧
    (Devices.List stW "nobody").2 = stW := by
  refine ⟨by decide, ?_, by decide, by decide, ?_, ?_⟩
  · exact ((c6_query_safety stW "nobody" "@nobody").1 (by decide)).1
  · exact (c6_query_safety stW "pan@example.org" "@nobody").2.1
      [("@bob:example.org", [("DEVID", deviceW)])] (by decide) (by decide)
  · exact (c6_query_safety stW "nobody" "@nobody").2.2.1

/-- C7: a dequeued event message of an unrecognized kind is ignored
without crashing: no signal, no notification, no cache change, the
message is still marked processed and the tick returns True. -/
theorem c7_unrecognized_kind_ignored :
    ∀ (caps : List String) (st : BridgeState) (payload : String)
      (rest : List EventMessage),
      st.receive_queue = EventMessage.OtherMessage payload :: rest →
      GlibT.message_callback caps st =
        ({ st with receive_queue := rest,
                   tasks_done := st.tasks_done + 1 },
          { signals := [], notifs := [], caps_queries := 0,
            cont := true }) := by
  intro caps st payload rest h
  obtain ⟨c, sq, rq, us, dl, sl, sto, nf, td⟩ := st
  have h' : rq = EventMessage.OtherMessage payload :: rest := h
  subst h'
  rfl

/-- Witness for C7 at a concrete unknown event kind. -/
theorem c7_unrecognized_kind_ignored_witness :
    stC7.receive_queue = [EventMessage.OtherMessage "UnknownMessageKind"] ∧
    GlibT.message_callback [] stC7 =
      ({ stC7 with receive_queue := [],
                   tasks_done := stC7.tasks_done + 1 },
        { signals := [], notifs := [], caps_queries := 0,
          cont := true }) :=
  ⟨rfl, c7_unrecognized_kind_ignored [] stC7 "UnknownMessageKind" [] rfl⟩

/-- C8 counterexample: the action-support capability is not queried once
at startup.  `GlibT.run` performs zero `get_server_caps` calls, while two
dispatched actionable notifications perform one each — the two
capability queries happen during dispatch ticks, not at startup. -/
theorem c8_caps_query_counterexample :
    (GlibT.run_init true true stW).2.2 = 0 ∧
    ((GlibT.ticksRun ["actions"] 2 stC8).2.map TickOut.caps_queries).sum
      = 2 := by
  constructor <;> rfl

/-- C8 (amended): the action-support capability is queried at each
rendering of an actionable notification rather than once at startup;
failed notification initialization is logged once as a non-fatal error,
notifications then stay disabled for the whole process lifetime, every
tick still completes and returns True, no notification is ever rendered
while the flag is off, and dispatch and control-surface behavior continue
unaffected: every command operation returns the same id and enqueues the
same message, and every query answers the same result, whatever the
notifications flag. -/
theorem c8_notification_degradation :
    ∀ (st : BridgeState) (ok : Bool), st.notifications = false →
      ((GlibT.run_init true ok st).1.notifications = ok ∧
       (GlibT.run_init true false st).2.1 = 1 ∧
       (GlibT.run_init false ok st).1.notifications = false) ∧
      (∀ caps pan room disp,
        (GlibT.unverified_notification caps pan room disp).2 = 1) ∧
      (∀ caps pan user dev tx,
        (GlibT.sas_invite_notification caps pan user dev tx).2 = 1 ∧
        ∀ emoji,
          (GlibT.sas_show_notification caps pan user dev tx emoji).2 = 1) ∧
      (∀ (op : CommandOp) (st3 : BridgeState) (b : Bool),
        (runOp op { st3 with notifications := b }).1 =
          (runOp op st3).1 ∧
        (runOp op { st3 with notifications := b }).2 =
          { (runOp op st3).2 with notifications := b }) ∧
      (∀ (st3 : BridgeState) (b : Bool) (pan user : String),
        (Devices.List { st3 with notifications := b } pan).1 =
          (Devices.List st3 pan).1 ∧
        (Devices.ListUserDevices { st3 with notifications := b }
            pan user).1 =
          (Devices.ListUserDevices st3 pan user).1 ∧
        (Control.ListServers { st3 with notifications := b }).1 =
          (Control.ListServers st3).1) ∧
      ∀ (caps : List String) (T : Nat) (st2 : BridgeState),
        st2.notifications = false →
        (GlibT.ticksRun caps T st2).1.notifications = false ∧
        ∀ out ∈ (GlibT.ticksRun caps T st2).2,
          out.notifs = [] ∧ out.cont = true := by
  intro st ok h
  refine ⟨⟨?_, ?_, ?_⟩, ?_, ?_, ?_, ?_, ?_⟩
  · cases ok <;> simp [GlibT.run_init]
  · simp [GlibT.run_init]
  · simp [GlibT.run_init, h]
  · intro caps pan room disp
    simp [GlibT.unverified_notification]
  · intro caps pan user dev tx
    exact ⟨rfl, fun emoji => rfl⟩
  · intro op st3 b
    cases op <;> exact ⟨rfl, rfl⟩
  · intro st3 b pan user
    refine ⟨?_, ?_, rfl⟩
    · cases h1 : alGet st3.device_list pan with
      | none => simp [Devices.List, h1]
      | some ds =>
          by_cases he : ds.isEmpty <;> simp [Devices.List, h1, he]
    · cases h1 : alGet st3.device_list pan with
      | none => simp [Devices.ListUserDevices, h1]
      | some ds =>
          by_cases he : ds.isEmpty
          · simp [Devices.ListUserDevices, h1, he]
          · cases h2 : alGet ds user with
            | none => simp [Devices.ListUserDevices, h1, he, h2]
            | some dl =>
                by_cases he2 : dl.isEmpty <;>
                  simp [Devices.ListUserDevices, h1, he, h2, he2]
  · intro caps T st2 h2
    refine ⟨?_, ticksRun_disabled caps T st2 h2⟩
    rw [ticksRun_notifications, h2]

/-- Witness for C8's amended statement: failed initialization at the
fixture state, two disabled ticks over a stocked queue, and a command and
a query behaving identically with the flag on and off. -/
theorem c8_notification_degradation_witness :
    stW.notifications = false ∧
    (GlibT.run_init true false stW).1.notifications = false ∧
    (GlibT.run_init true false stW).2.1 = 1 ∧
    stC8b.notifications = false ∧
    (GlibT.ticksRun ["actions"] 2 stC8b).1.notifications = false ∧
    (runOp (CommandOp.sendAnyways "alice" "!r:example")
        { stW with notifications := true }).1 =
      (runOp (CommandOp.sendAnyways "alice" "!r:example") stW).1 ∧
    (Devices.List { stW with notifications := true } "pan@example.org").1 =
      (Devices.List stW "pan@example.org").1 := by
  have h := c8_notification_degradation stW false rfl
  exact ⟨rfl, h.1.1, h.1.2.1,
    rfl, (h.2.2.2.2.2 ["actions"] 2 stC8b rfl).1,
    (h.2.2.2.1 (CommandOp.sendAnyways "alice" "!r:example") stW true).1,
    (h.2.2.2.2.1 stW true "pan@example.org" "@bob:example.org").1⟩

/-- C9: with notifications enabled and an action-capable server, the
dispatched UnverifiedDevices notification carries a send action capturing
exactly the event's account id and room id; triggering it invokes
SendAnyways, which enqueues one SendAnyways command with exactly those
two fields and the current counter value as id — an id never returned
before and not embedded in any queued message of any reachable state. -/
theorem c9_send_anyways_action :
    ∀ (caps : List String) (st : BridgeState) (pan room disp : String)
      (rest : List EventMessage),
      st.receive_queue =
        EventMessage.UnverifiedDevicesSignal pan room disp :: rest →
      st.notifications = true →
      caps.contains "actions" = true →
      ((GlibT.message_callback caps st).2.notifs =
        [(GlibT.unverified_notification caps pan room disp).1] ∧
       (GlibT.unverified_notification caps pan room disp).1.actions =
        [⟨"send", "Send anyways", CallbackKind.sendCb,
           EventMessage.UnverifiedDevicesSignal pan room disp⟩,
         ⟨"cancel", "Cancel sending", CallbackKind.cancelSendingCb,
           EventMessage.UnverifiedDevicesSignal pan room disp⟩]) ∧
      (∀ st2 : BridgeState,
        (NotifAction.trigger
            ⟨"send", "Send anyways", CallbackKind.sendCb,
              EventMessage.UnverifiedDevicesSignal pan room disp⟩
            st2).send_queue =
          st2.send_queue ++
            [ThreadMessage.SendAnywaysMessage st2.counter pan room] ∧
        (NotifAction.trigger
            ⟨"send", "Send anyways", CallbackKind.sendCb,
              EventMessage.UnverifiedDevicesSignal pan room disp⟩
            st2).counter = st2.counter + 1) ∧
      ∀ (sl : List ServerConfig) (store : PanStore)
        (ops : List CommandOp),
        (runOps ops (GlibT.attrs_post_init sl store)).2.counter ∉
            (runOps ops (GlibT.attrs_post_init sl store)).1 ∧
        ∀ m ∈ (runOps ops (GlibT.attrs_post_init sl store)).2.send_queue,
          m.message_id ≠
            (runOps ops (GlibT.attrs_post_init sl store)).2.counter := by
  intro caps st pan room disp rest h hn hc
  have hcm : "actions" ∈ caps := by simpa using hc
  refine ⟨⟨?_, ?_⟩, ?_, ?_⟩
  · simp [GlibT.message_callback, h, GlibT.dispatch, hn]
  · simp [GlibT.unverified_notification, hcm]
  · intro st2
    constructor <;>
      simp [NotifAction.trigger, GlibT.send_cb, Control.SendAnyways,
        IdCounter.message_id]
  · intro sl store ops
    have hinit_c : (GlibT.attrs_post_init sl store).counter = 0 := rfl
    have hinit_q : (GlibT.attrs_post_init sl store).send_queue = [] := rfl
    have hcnt : (runOps ops (GlibT.attrs_post_init sl store)).2.counter =
        ops.length := by
      rw [runOps_counter, hinit_c, Nat.zero_add]
    constructor
    · rw [hcnt, runOps_fst, hinit_c]
      intro hmem
      rw [List.mem_range'_1] at hmem
      omega
    · intro m hm heq
      have hlt := runOps_send_ids_lt ops (GlibT.attrs_post_init sl store)
        (fun m' hm' => by
          rw [hinit_q] at hm'
          exact absurd hm' (List.not_mem_nil m')) m hm
      rw [heq] at hlt
      exact Nat.lt_irrefl _ hlt

/-- Witness for C9 at a concrete enabled state and trace. -/
theorem c9_send_anyways_action_witness :
    stC8.receive_queue =
      EventMessage.UnverifiedDevicesSignal "alice" "!r:example" "room" ::
        [EventMessage.UnverifiedDevicesSignal "alice" "!s:example" "den"] ∧
    stC8.notifications = true ∧
    (["actions"] : List String).contains "actions" = true ∧
    (NotifAction.trigger
        ⟨"send", "Send anyways", CallbackKind.sendCb,
          EventMessage.UnverifiedDevicesSignal "alice" "!r:example"
            "room"⟩ stW).send_queue =
      stW.send_queue ++
        [ThreadMessage.SendAnywaysMessage stW.counter "alice"
          "!r:example"] ∧
    (runOps opsW (GlibT.attrs_post_init serversW storeW)).2.counter ∉
      (runOps opsW (GlibT.attrs_post_init serversW storeW)).1 := by
  have h := c9_send_anyways_action ["actions"] stC8 "alice" "!r:example"
    "room" [EventMessage.UnverifiedDevicesSignal "alice" "!s:example" "den"]
    rfl rfl (by decide)
  exact ⟨rfl, rfl, by decide, (h.2.1 stW).1,
    (h.2.2 serversW storeW opsW).1⟩

/-- C10: processing a DaemonResponse event only emits the Response
signal: it renders no notification even when notifications are enabled,
and leaves every state component except the inbound queue and the
processed-message count unchanged — in particular both caches. -/
theorem c10_daemon_response_frame :
    ∀ (caps : List String) (st : BridgeState) (mid : Nat)
      (pan code msg : String) (rest : List EventMessage),
      st.receive_queue =
        EventMessage.DaemonResponse mid pan code msg :: rest →
      GlibT.message_callback caps st =
        ({ st with receive_queue := rest,
                   tasks_done := st.tasks_done + 1 },
          { signals := [SignalOut.Response mid pan
              [("code", code), ("message", msg)]],
            notifs := [], caps_queries := 0, cont := true }) := by
  intro caps st mid pan code msg rest h
  obtain ⟨c, sq, rq, us, dl, sl, sto, nf, td⟩ := st
  have h' : rq = EventMessage.DaemonResponse mid pan code msg :: rest := h
  subst h'
  rfl

/-- Witness for C10 at a state with notifications enabled. -/
theorem c10_daemon_response_frame_witness :
    stC10.receive_queue =
      [EventMessage.DaemonResponse 0 "alice" "0" "ok"] ∧
    GlibT.message_callback ["actions"] stC10 =
      ({ stC10 with receive_queue := [],
                    tasks_done := stC10.tasks_done + 1 },
        { signals := [SignalOut.Response 0 "alice"
            [("code", "0"), ("message", "ok")]],
          notifs := [], caps_queries := 0, cont := true }) :=
  ⟨rfl, c10_daemon_response_frame ["actions"] stC10 0 "alice" "0" "ok"
    [] rfl⟩

end Pantalaimon
